import Mathlib

/-!
Verification development for the DamaDam Master Bot (Scraper.py).

The profile synchronization and adaptive rate-control engine of the
repository is shallowly embedded below: Python strings become Lean
`String`, Python dicts become association lists with last-write-wins
lookup, the Google-Sheets worksheet becomes a list of data rows (the
physical row number of data row `i` is `i + 2`, row 1 being the header),
and Python floats become exact rationals.  Browser automation and the
network layer are out of scope; store calls that can raise are given an
explicit success flag where a claim depends on the failure path.
-/

namespace Scraper

/-! ## Python string primitives -/

/-- Whitespace characters recognised by Python `str.strip` and `\s`
(restricted to the characters that can occur in the data handled by the
program: ASCII whitespace plus the non-breaking space). -/
def isPySpace (c : Char) : Bool :=
  c = ' ' || c = '\t' || c = '\n' || c = '\r' || c = '\x0b' || c = '\x0c' || c = ' '

/-- Python `str.strip()`: drop leading and trailing whitespace. -/
def pyStrip (s : String) : String :=
  ⟨((s.data.dropWhile isPySpace).reverse.dropWhile isPySpace).reverse⟩

/-- Python `str.lower()` (ASCII case folding, which covers the nicknames
and column labels the program manipulates). -/
def pyLower (s : String) : String :=
  ⟨s.data.map Char.toLower⟩

/-- Python `str.replace('\xa0', ' ')`. -/
def replaceNbsp (s : String) : String :=
  ⟨s.data.map (fun c => if c = ' ' then ' ' else c)⟩

/-- Auxiliary loop for `re.sub(r"\s+", " ", v)`: each maximal run of
whitespace characters is replaced by a single space.  The boolean flag
records whether the previous character belonged to a whitespace run. -/
def collapseAux : Bool → List Char → List Char
  | _, [] => []
  | prevSpace, c :: rest =>
    if isPySpace c then
      if prevSpace then collapseAux true rest
      else ' ' :: collapseAux true rest
    else c :: collapseAux false rest

/-- Python `re.sub(r"\s+", " ", v)`. -/
def collapseWs (s : String) : String :=
  ⟨collapseAux false s.data⟩

/-- The sentinel vocabulary of "no value" placeholders of `clean_data`
(Scraper.py line 155), exactly the literal case variants listed there. -/
def badValues : List String :=
  ["No city", "Not set", "[No Posts]", "N/A", "no city", "not set", "[no posts]",
   "n/a", "[No Post URL]", "[Error]", "no set", "none", "null", "no age"]

/-- `clean_data` (Scraper.py lines 150-156): empty stays empty; otherwise
strip, replace non-breaking spaces, map a placeholder to the empty string,
and collapse internal whitespace. -/
def clean_data (v : String) : String :=
  if v = "" then ""
  else
    let v := replaceNbsp (pyStrip v)
    if v ∈ badValues then "" else collapseWs v

/-! ## Schema constants (Scraper.py lines 75-90) -/

/-- `COLUMN_ORDER`: the ordered schema of the ProfilesData sheet. -/
def COLUMN_ORDER : List String :=
  ["IMAGE", "NICK NAME", "TAGS", "LAST POST", "LAST POST TIME", "FRIEND", "CITY",
   "GENDER", "MARRIED", "AGE", "JOINED", "FOLLOWERS", "STATUS",
   "POSTS", "PROFILE LINK", "INTRO", "SOURCE", "DATETIME SCRAP"]

/-- `HIGHLIGHT_EXCLUDE_COLUMNS`: columns excluded from change detection. -/
def HIGHLIGHT_EXCLUDE_COLUMNS : List String :=
  ["LAST POST", "LAST POST TIME", "JOINED", "PROFILE LINK", "DATETIME SCRAP"]

/-- `LINK_COLUMNS`: columns holding raw URLs. -/
def LINK_COLUMNS : List String :=
  ["IMAGE", "LAST POST", "PROFILE LINK"]

/-! ## AdaptiveDelay (Scraper.py lines 294-342)

Python floats are modelled as exact rationals.  The wall clock consulted
by `on_success` (`time.time() - self.last > 10`) is abstracted into a
boolean `idle` argument saying whether more than 10 seconds have elapsed
since the last downward adjustment; `self.last` itself is therefore not
part of the modelled state.  `OPTIMIZATION_SAMPLE_SIZE = 10`,
`BATCH_SIZE_FACTOR = 1.2`, `DELAY_REDUCTION_FACTOR = 0.9`
(Scraper.py lines 68-71). -/

structure AdaptiveDelay where
  base_min : ℚ
  base_max : ℚ
  min_delay : ℚ
  max_delay : ℚ
  hits : ℕ
  batch_size : ℤ
deriving DecidableEq

namespace AdaptiveDelay

/-- `AdaptiveDelay.__init__(mn, mx)` with `BATCH_SIZE` as batch size. -/
def init (mn mx : ℚ) (batch : ℤ) : AdaptiveDelay :=
  { base_min := mn, base_max := mx, min_delay := mn, max_delay := mx,
    hits := 0, batch_size := batch }

/-- `on_success`: decrement `hits` if positive; if more than 10 seconds
have elapsed since the last adjustment (`idle`), shrink both delays by
5 percent, floored at the base values. -/
def on_success (d : AdaptiveDelay) (idle : Bool) : AdaptiveDelay :=
  let d := if d.hits ≠ 0 then { d with hits := d.hits - 1 } else d
  if idle then
    { d with min_delay := max d.base_min (d.min_delay * 0.95),
             max_delay := max d.base_max (d.max_delay * 0.95) }
  else d

/-- `on_rate_limit`: increment `hits`; multiply both delays by
`1 + min(0.2 * hits, 1.0)`, capped at 3.0 and 6.0. -/
def on_rate_limit (d : AdaptiveDelay) : AdaptiveDelay :=
  { d with hits := d.hits + 1,
           min_delay := min 3 (d.min_delay * (1 + min (0.2 * ((d.hits + 1 : ℕ) : ℚ)) 1)),
           max_delay := min 6 (d.max_delay * (1 + min (0.2 * ((d.hits + 1 : ℕ) : ℚ)) 1)) }

/-- `on_batch`: widen both delays by 10 percent, floored at the base
values and capped at 3.0 and 6.0. -/
def on_batch (d : AdaptiveDelay) : AdaptiveDelay :=
  { d with min_delay := min 3 (max d.base_min (d.min_delay * 1.1)),
           max_delay := min 6 (max d.base_max (d.max_delay * 1.1)) }

/-- `optimize_batch_size`: once `success_count` reaches the sample size
10, grow the batch size by 20 percent (Python `int` truncation, which is
the floor for the nonnegative values that occur) and shrink both delays
by 10 percent, floored at the base values. -/
def optimize_batch_size (d : AdaptiveDelay) (success_count : ℕ) : AdaptiveDelay :=
  if success_count ≥ 10 then
    { d with batch_size := ⌊(d.batch_size : ℚ) * 1.2⌋,
             min_delay := max d.base_min (d.min_delay * 0.9),
             max_delay := max d.base_max (d.max_delay * 0.9) }
  else d

end AdaptiveDelay

/-- One observable signal consumed by the rate controller. -/
inductive RateOp where
  | success (idle : Bool)
  | rateLimited
  | batchBoundary
  | tune (successCount : ℕ)

/-- Applying one signal to the controller state. -/
def applyOp (d : AdaptiveDelay) : RateOp → AdaptiveDelay
  | .success idle => d.on_success idle
  | .rateLimited => d.on_rate_limit
  | .batchBoundary => d.on_batch
  | .tune n => d.optimize_batch_size n

/-- Applying a sequence of signals in order. -/
def applyOps (d : AdaptiveDelay) (ops : List RateOp) : AdaptiveDelay :=
  ops.foldl applyOp d

/-- The delay invariant exactly as the specification states it:
`baseMin ≤ minDelay ≤ 3.0`, `baseMax ≤ maxDelay ≤ 6.0` and
`minDelay ≤ maxDelay`. -/
def RateInv (d : AdaptiveDelay) : Prop :=
  d.base_min ≤ d.min_delay ∧ d.min_delay ≤ 3 ∧
  d.base_max ≤ d.max_delay ∧ d.max_delay ≤ 6 ∧
  d.min_delay ≤ d.max_delay

instance (d : AdaptiveDelay) : Decidable (RateInv d) := by
  unfold RateInv; infer_instance

/-- The delay invariant strengthened with the well-formedness of the base
bounds: the bases are nonnegative and ordered.  Both facts are preserved
by every operation because no operation writes the base fields. -/
def RateInvFull (d : AdaptiveDelay) : Prop :=
  0 ≤ d.base_min ∧ d.base_min ≤ d.base_max ∧ RateInv d

instance (d : AdaptiveDelay) : Decidable (RateInvFull d) := by
  unfold RateInvFull; infer_instance

/-! ## Profiles as Python dicts

A scraped profile is a Python dict from column names to string values;
it is modelled as an association list whose lookup returns the most
recent binding, so dict assignment is a prepend. -/

/-- A profile dict. -/
abbrev Profile := List (String × String)

/-- Python `d.get(k)`. -/
def pget (p : Profile) (k : String) : Option String := p.lookup k

/-- Python `d.get(k) or ""` and `d.get(k, "")`: both give `""` for a
missing key, and `or ""` is the identity on the strings that remain. -/
def pgetD (p : Profile) (k : String) : String := (p.lookup k).getD ""

/-- Python `d[k] = v`. -/
def pset (p : Profile) (k v : String) : Profile := (k, v) :: p

/-! ## The Sheets state (Scraper.py class Sheets)

Only the state consulted by the claims is carried: the `existing`
identity index, the data rows of the ProfilesData sheet, and the tags
mapping.  The worksheet is a list of data rows; the physical row number
of the row at list index `i` is `i + 2` (row 1 holds the header), so
`insert_row(values, 2)` prepends and `delete_rows(r)` erases index
`r - 2`. -/

/-- One entry of the in-memory identity index `self.existing`:
the recorded physical row and the cached row values. -/
structure ExistingEntry where
  row : ℕ
  data : List String
deriving DecidableEq

/-- The Sheets state used by `write_profile`. -/
structure SheetsState where
  existing : List (String × ExistingEntry)
  sheetRows : List (List String)
  tags_mapping : List (String × String)
deriving DecidableEq

/-- String-transforming collaborators of `write_profile` whose content no
claim depends on: `convert_relative_date_to_absolute` (Scraper.py lines
158-172; regex and date arithmetic over the wall clock) and the
`LAST POST` URL rewriting of `Sheets._clean_url` guarded as on lines
925-926.  They are carried as abstract string functions. -/
structure Config where
  convertRel : String → String
  cleanUrlLastPost : String → String

/-- A configuration whose abstract collaborators are identities; used to
evaluate the model on concrete inputs. -/
def idConfig : Config := ⟨fun s => s, fun s => s⟩

/-- `Sheets._load_existing` (Scraper.py lines 698-708): scan the data
rows (physical rows 2, 3, ...) and index each row whose `NICK NAME` cell
(column index 1) is non-blank under its lowercased stripped nickname;
a later duplicate overwrites an earlier one, as in a Python dict. -/
def _load_existing (rows : List (List String)) : List (String × ExistingEntry) :=
  rows.enum.foldl
    (fun acc ir =>
      let i := ir.1
      let r := ir.2
      if 1 < r.length ∧ pyStrip (r.getD 1 "") ≠ "" then
        (pyLower (pyStrip (r.getD 1 "")), ⟨i + 2, r⟩) :: acc
      else acc)
    []

/-- The result dict of `write_profile`. -/
structure WriteResult where
  status : String
  changed_fields : List String
deriving DecidableEq

/-- The normalization block of `write_profile` (Scraper.py lines
965-973): convert a truthy `LAST POST TIME` to an absolute date, stamp
`DATETIME SCRAP` with the current formatted time, and overwrite `TAGS`
when the tags mapping has a truthy value for the key. -/
def normalizeProfile (cfg : Config) (now : String) (tags : Option String)
    (p : Profile) : Profile :=
  let p := match pget p "LAST POST TIME" with
    | some v => if v = "" then p else pset p "LAST POST TIME" (cfg.convertRel v)
    | none => p
  let p := pset p "DATETIME SCRAP" now
  match tags with
  | some tv => if tv = "" then p else pset p "TAGS" tv
  | none => p

/-- The row-building loop of `write_profile` (Scraper.py lines 976-986):
`IMAGE` is blanked, the link columns `PROFILE LINK` and `LAST POST` pass
through raw, every other column is cleaned. -/
def buildRowValues (p : Profile) : List String :=
  COLUMN_ORDER.map fun c =>
    if c = "IMAGE" then ""
    else if c = "PROFILE LINK" then (pget p c).getD ""
    else if c = "LAST POST" then (pget p c).getD ""
    else clean_data (pgetD p c)

/-- The change-detection loop of `write_profile` (Scraper.py lines
993-1001): for each schema position not in the exclusion set, compare
the stored cell (the `before` dict, padded with `""`) with the freshly
built row value and record the position on inequality. -/
def changedIndices (dataBefore rowValues : List String) : List ℕ :=
  (List.range COLUMN_ORDER.length).filter fun i =>
    !(HIGHLIGHT_EXCLUDE_COLUMNS.contains (COLUMN_ORDER.getD i "")) &&
    (dataBefore.getD i "" != rowValues.getD i "")

/-- `Sheets._update_links` (Scraper.py lines 917-934) as it acts on the
modelled sheet: for each link column with a truthy value in the profile
dict, write that value (with the `LAST POST` URL rewriting) into the
corresponding cell of the given data row. -/
def _update_links (cfg : Config) (rows : List (List String)) (rowIdx : ℕ)
    (p : Profile) : List (List String) :=
  LINK_COLUMNS.foldl
    (fun rs col =>
      let v := (pget p col).getD ""
      if v = "" then rs
      else
        let v := if col = "LAST POST" then cfg.cleanUrlLastPost v else v
        let c := COLUMN_ORDER.indexOf col
        rs.set rowIdx ((rs.getD rowIdx []).set c v))
    rows

/-- `Sheets.write_profile` (Scraper.py lines 959-1029).  The call is
rejected with the error result before any mutation when the stripped
nickname is blank.  Otherwise the profile is normalized, the row values
are built, and either the update branch runs (diff against the indexed
entry, insert at physical row 2, rewrite the link cells, delete the old
row at the recorded position plus one, reindex the key at row 2) or the
new branch runs (insert at row 2, rewrite links, index the key).  Cell
notes only annotate; they carry no state a claim consults and are not
modelled.  The returned result mirrors the Python result dict. -/
def write_profile (cfg : Config) (now : String) (s : SheetsState)
    (profile : Profile) : SheetsState × WriteResult :=
  let nickname := pyStrip ((pget profile "NICK NAME").getD "")
  if nickname = "" then (s, ⟨"error", []⟩)
  else
    let key := pyLower nickname
    let profile := normalizeProfile cfg now (s.tags_mapping.lookup key) profile
    let rowValues := buildRowValues profile
    match s.existing.lookup key with
    | some ex =>
        let changed := changedIndices ex.data rowValues
        let rows := rowValues :: s.sheetRows
        let rows := _update_links cfg rows 0 profile
        let oldRow := if ex.row ≥ 2 then ex.row + 1 else 3
        let rows := rows.eraseIdx (oldRow - 2)
        let status := if changed = [] then "unchanged" else "updated"
        ({ s with existing := (key, ⟨2, rowValues⟩) :: s.existing,
                  sheetRows := rows },
         ⟨status, changed.map fun i => COLUMN_ORDER.getD i ""⟩)
    | none =>
        let rows := _update_links cfg (rowValues :: s.sheetRows) 0 profile
        ({ s with existing := (key, ⟨2, rowValues⟩) :: s.existing,
                  sheetRows := rows },
         ⟨"new", COLUMN_ORDER⟩)

/-! ## The NickList seen tracker (Scraper.py lines 754-823) -/

/-- One entry of `self.nick_list_existing`. -/
structure NickEntry where
  row : ℕ
  times : ℤ
  first : String
  last : String
deriving DecidableEq

/-- The in-memory seen-tracker state: the key-to-entry mapping and the
next free physical row of the NickList sheet. -/
structure NickState where
  entries : List (String × NickEntry)
  nextRow : ℕ
deriving DecidableEq

/-- `Sheets.record_nick_seen` (Scraper.py lines 782-823).  `ts` is the
formatted observation time `seen_at.strftime(...)`; `ok` is the outcome
of the single worksheet call of the taken branch (`update` for an
existing entry, `append_row` for a new one) — when that call raises, the
function logs and returns before any in-memory assignment, so the state
is returned untouched. -/
def record_nick_seen (s : NickState) (nickname : String) (ts : String)
    (ok : Bool) : NickState :=
  if nickname = "" then s
  else
    let key := pyLower (pyStrip nickname)
    if key = "" then s
    else
      match s.entries.lookup key with
      | some e =>
          if ok then
            { s with entries := (key, { e with times := e.times + 1, last := ts }) :: s.entries }
          else s
      | none =>
          if ok then
            { entries := (key, ⟨s.nextRow, 1, ts, ts⟩) :: s.entries,
              nextRow := s.nextRow + 1 }
          else s

/-! ## The Dashboard metrics table (Scraper.py lines 883-901) -/

/-- The row assembled by `update_dashboard` from the metrics dict, with
the defaults of Scraper.py lines 886-898 (numeric defaults rendered as
the strings the sheet stores; `trigger` is the `GITHUB_EVENT_NAME`
fallback and `now` the formatted current time). -/
def dashboardRow (trigger now : String) (metrics : List (String × String)) :
    List String :=
  [(metrics.lookup "Run Number").getD "1",
   (metrics.lookup "Last Run").getD now,
   (metrics.lookup "Profiles Processed").getD "0",
   (metrics.lookup "Success").getD "0",
   (metrics.lookup "Failed").getD "0",
   (metrics.lookup "New Profiles").getD "0",
   (metrics.lookup "Updated Profiles").getD "0",
   (metrics.lookup "Unchanged Profiles").getD "0",
   (metrics.lookup "Trigger").getD trigger,
   (metrics.lookup "Start").getD now,
   (metrics.lookup "End").getD now]

/-- `Sheets.update_dashboard`: append the assembled metrics row at the
bottom of the Dashboard table (`append_row`). -/
def update_dashboard (rows : List (List String)) (trigger now : String)
    (metrics : List (String × String)) : List (List String) :=
  rows ++ [dashboardRow trigger now metrics]

/-- The non-excluded schema positions other than the blanked `IMAGE`
column, with their column names. -/
def plainCols : List (ℕ × String) :=
  [(1, "NICK NAME"), (2, "TAGS"), (5, "FRIEND"), (6, "CITY"), (7, "GENDER"),
   (8, "MARRIED"), (9, "AGE"), (11, "FOLLOWERS"), (12, "STATUS"),
   (13, "POSTS"), (15, "INTRO"), (16, "SOURCE")]

/-- A ProfilesData sheet row holding the pre-existing record "ali"
(nickname in column index 1, a city in column index 6). -/
def aliSeedRow : List String :=
  ["", "ali", "", "", "", "", "Lahore", "", "", "", "", "", "", "", "", "", "", ""]

/-- A ProfilesData sheet row holding a pre-existing record "ali" whose
CITY cell (column index 6) stores the placeholder literal "N/A". -/
def aliSeedRowNA : List String :=
  ["", "ali", "", "", "", "", "N/A", "", "", "", "", "", "", "", "", "", "", ""]

/-- A stored sheet row for "ali" whose CITY cell holds " Lahore " (not
in cleaned form) and whose excluded LAST POST TIME cell holds "x". -/
def aliSeedRowSpaced : List String :=
  ["", "ali", "", "", "x", "", " Lahore ", "", "", "", "", "", "", "", "", "", "", ""]

/-! ## Rate-controller lemmas -/

/-- Shrinking both delays by a factor in `[0, 1]`, floored at the bases,
preserves the full invariant on the delay fields. -/
lemma shrink_floor_bounds (q : ℚ) {bmin bmax mn mx : ℚ}
    (hq0 : 0 ≤ q) (hq1 : q ≤ 1) (hb0 : 0 ≤ bmin) (hbb : bmin ≤ bmax)
    (h1 : bmin ≤ mn) (h2 : mn ≤ 3) (h3 : bmax ≤ mx) (h4 : mx ≤ 6)
    (h5 : mn ≤ mx) :
    bmin ≤ max bmin (mn * q) ∧ max bmin (mn * q) ≤ 3 ∧
    bmax ≤ max bmax (mx * q) ∧ max bmax (mx * q) ≤ 6 ∧
    max bmin (mn * q) ≤ max bmax (mx * q) := by
  have hmn0 : 0 ≤ mn := hb0.trans h1
  have hmx0 : 0 ≤ mx := hmn0.trans h5
  refine ⟨le_max_left _ _, max_le (h1.trans h2) ?_, le_max_left _ _,
    max_le (h3.trans h4) ?_, max_le (hbb.trans (le_max_left _ _)) ?_⟩
  · exact (mul_le_of_le_one_right hmn0 hq1).trans h2
  · exact (mul_le_of_le_one_right hmx0 hq1).trans h4
  · exact (mul_le_mul_of_nonneg_right h5 hq0).trans (le_max_right _ _)

/-- Growing both delays by a factor `1 ≤ f`, capped at the hard ceilings,
preserves the full invariant on the delay fields. -/
lemma grow_cap_bounds (f : ℚ) {bmin bmax mn mx : ℚ}
    (hf : 1 ≤ f) (hb0 : 0 ≤ bmin) (_hbb : bmin ≤ bmax)
    (h1 : bmin ≤ mn) (h2 : mn ≤ 3) (h3 : bmax ≤ mx) (h4 : mx ≤ 6)
    (h5 : mn ≤ mx) :
    bmin ≤ min 3 (mn * f) ∧ min 3 (mn * f) ≤ 3 ∧
    bmax ≤ min 6 (mx * f) ∧ min 6 (mx * f) ≤ 6 ∧
    min 3 (mn * f) ≤ min 6 (mx * f) := by
  have hmn0 : 0 ≤ mn := hb0.trans h1
  have hmx0 : 0 ≤ mx := hmn0.trans h5
  have hf0 : 0 ≤ f := zero_le_one.trans hf
  refine ⟨le_min (h1.trans h2) (h1.trans (le_mul_of_one_le_right hmn0 hf)),
    min_le_left _ _,
    le_min (h3.trans h4) (h3.trans (le_mul_of_one_le_right hmx0 hf)),
    min_le_left _ _,
    le_min ((min_le_left _ _).trans (by norm_num)) ?_⟩
  exact (min_le_right _ _).trans (mul_le_mul_of_nonneg_right h5 hf0)

/-- Widening both delays by 10 percent, floored at the bases and capped
at the ceilings, preserves the full invariant on the delay fields. -/
lemma widen_cap_bounds {bmin bmax mn mx : ℚ}
    (_hb0 : 0 ≤ bmin) (hbb : bmin ≤ bmax)
    (h1 : bmin ≤ mn) (h2 : mn ≤ 3) (h3 : bmax ≤ mx) (h4 : mx ≤ 6)
    (h5 : mn ≤ mx) :
    bmin ≤ min 3 (max bmin (mn * 1.1)) ∧ min 3 (max bmin (mn * 1.1)) ≤ 3 ∧
    bmax ≤ min 6 (max bmax (mx * 1.1)) ∧ min 6 (max bmax (mx * 1.1)) ≤ 6 ∧
    min 3 (max bmin (mn * 1.1)) ≤ min 6 (max bmax (mx * 1.1)) := by
  refine ⟨le_min (h1.trans h2) (le_max_left _ _), min_le_left _ _,
    le_min (h3.trans h4) (le_max_left _ _), min_le_left _ _,
    le_min ((min_le_left _ _).trans (by norm_num)) ?_⟩
  refine (min_le_right _ _).trans (max_le (hbb.trans (le_max_left _ _)) ?_)
  exact (mul_le_mul_of_nonneg_right h5 (by norm_num)).trans (le_max_right _ _)

/-- Field equations of `on_success`: the bases are untouched and the
delay fields shrink exactly when the idle condition holds. -/
lemma on_success_fields (d : AdaptiveDelay) (idle : Bool) :
    (d.on_success idle).base_min = d.base_min ∧
    (d.on_success idle).base_max = d.base_max ∧
    (d.on_success idle).min_delay =
      (if idle then max d.base_min (d.min_delay * 0.95) else d.min_delay) ∧
    (d.on_success idle).max_delay =
      (if idle then max d.base_max (d.max_delay * 0.95) else d.max_delay) := by
  unfold AdaptiveDelay.on_success
  by_cases hh : d.hits ≠ 0 <;> cases idle <;> simp [hh]

/-- Every single controller signal preserves the strengthened invariant. -/
lemma rateInvFull_applyOp {d : AdaptiveDelay} (h : RateInvFull d)
    (op : RateOp) : RateInvFull (applyOp d op) := by
  obtain ⟨hb0, hbb, h1, h2, h3, h4, h5⟩ := h
  cases op with
  | success idle =>
      obtain ⟨e1, e2, e3, e4⟩ := on_success_fields d idle
      show RateInvFull (d.on_success idle)
      unfold RateInvFull RateInv
      rw [e1, e2, e3, e4]
      cases idle
      · exact ⟨hb0, hbb, h1, h2, h3, h4, h5⟩
      · exact ⟨hb0, hbb,
          shrink_floor_bounds 0.95 (by norm_num) (by norm_num) hb0 hbb h1 h2 h3 h4 h5⟩
  | rateLimited =>
      have hf : (1 : ℚ) ≤ 1 + min (0.2 * ((d.hits + 1 : ℕ) : ℚ)) 1 := by
        have hmin : (0 : ℚ) ≤ min (0.2 * ((d.hits + 1 : ℕ) : ℚ)) 1 := by
          refine le_min ?_ (by norm_num)
          positivity
        linarith
      show RateInvFull (d.on_rate_limit)
      unfold RateInvFull RateInv AdaptiveDelay.on_rate_limit
      exact ⟨hb0, hbb, grow_cap_bounds _ hf hb0 hbb h1 h2 h3 h4 h5⟩
  | batchBoundary =>
      show RateInvFull (d.on_batch)
      unfold RateInvFull RateInv AdaptiveDelay.on_batch
      exact ⟨hb0, hbb, widen_cap_bounds hb0 hbb h1 h2 h3 h4 h5⟩
  | tune n =>
      show RateInvFull (d.optimize_batch_size n)
      unfold RateInvFull RateInv AdaptiveDelay.optimize_batch_size
      by_cases hn : n ≥ 10 <;> simp only [hn, ite_true, ite_false, if_true, if_false]
      · exact ⟨hb0, hbb,
          shrink_floor_bounds 0.9 (by norm_num) (by norm_num) hb0 hbb h1 h2 h3 h4 h5⟩
      · exact ⟨hb0, hbb, h1, h2, h3, h4, h5⟩

/-! ## Claim C2 -/

/-- C2, counterexample.  The invariant exactly as the claim states it is
not preserved by every operation from every state satisfying it: the
state with `baseMin = 2`, `baseMax = 1`, `minDelay = maxDelay = 2`
satisfies `baseMin ≤ minDelay ≤ 3.0`, `baseMax ≤ maxDelay ≤ 6.0` and
`minDelay ≤ maxDelay`, yet after `onSuccess` in the more-than-10-seconds
idle branch the new delays are `minDelay = max(2, 1.9) = 2` and
`maxDelay = max(1, 1.9) = 1.9`, breaking `minDelay ≤ maxDelay`. -/
theorem rate_invariant_not_preserved_as_stated :
    RateInv ⟨2, 1, 2, 2, 0, 10⟩ ∧
    ¬ RateInv (AdaptiveDelay.on_success ⟨2, 1, 2, 2, 0, 10⟩ true) := by
  constructor
  · refine ⟨le_refl _, by norm_num, by norm_num, by norm_num, le_refl _⟩
  · obtain ⟨e1, e2, e3, e4⟩ :=
      on_success_fields ⟨2, 1, 2, 2, 0, 10⟩ true
    intro hinv
    obtain ⟨-, -, -, -, h5⟩ := hinv
    rw [e3, e4] at h5
    norm_num at h5

/-- C2, amended.  Strengthening the claimed invariant with the base
well-formedness `0 ≤ baseMin` and `baseMin ≤ baseMax` (which hold for
every controller the program constructs, since `AdaptiveDelay(mn, mx)`
starts with `minDelay = baseMin = mn ≤ mx = baseMax = maxDelay`) makes it
inductive: it then holds after every sequence of `onSuccess`,
`onRateLimited`, `onBatchBoundary` and `tuneAfterSample` signals. -/
theorem rate_invariant_holds_along_all_sequences (d : AdaptiveDelay)
    (h : RateInvFull d) (ops : List RateOp) : RateInvFull (applyOps d ops) := by
  induction ops generalizing d with
  | nil => exact h
  | cons op rest ih => exact ih _ (rateInvFull_applyOp h op)

/-- C2, witness: the inductive invariant holds for the controller built
from the default configuration `MIN_DELAY = 0.5`, `MAX_DELAY = 0.7`,
`BATCH_SIZE = 10` and survives a concrete mixed signal sequence. -/
theorem rate_invariant_holds_along_all_sequences_witness :
    RateInvFull (AdaptiveDelay.init 0.5 0.7 10) ∧
    RateInvFull (applyOps (AdaptiveDelay.init 0.5 0.7 10)
      [.rateLimited, .rateLimited, .success true, .batchBoundary,
       .tune 10, .success false, .rateLimited]) :=
  ⟨by norm_num [RateInvFull, RateInv, AdaptiveDelay.init],
   rate_invariant_holds_along_all_sequences (AdaptiveDelay.init 0.5 0.7 10)
     (by norm_num [RateInvFull, RateInv, AdaptiveDelay.init])
     [.rateLimited, .rateLimited, .success true, .batchBoundary,
      .tune 10, .success false, .rateLimited]⟩

/-! ## Claim C5 -/

/-- C5, counterexample.  Starting from `RateState{min:0.5, max:0.7}`,
three consecutive `onRateLimited()` calls do not leave
`minDelay = min(3.0, 0.5 * (1 + 0.6)) = 0.8` as the claim computes: the
multiplicative formula is applied cumulatively, one factor per call. -/
theorem rate_limited_three_times_min_delay_not_0_8 :
    (applyOps (AdaptiveDelay.init 0.5 0.7 10)
      [.rateLimited, .rateLimited, .rateLimited]).min_delay ≠ 0.8 := by
  norm_num [applyOps, applyOp, AdaptiveDelay.init, AdaptiveDelay.on_rate_limit,
    List.foldl, min_def]

/-- C5, amended.  From `RateState{min:0.5, max:0.7}` three consecutive
`onRateLimited()` calls compound the per-call factors 1.2, 1.4 and 1.6
(penalties 1, 2, 3), giving `minDelay = 0.5*1.2*1.4*1.6 = 1.344` and
`maxDelay = 0.7*1.2*1.4*1.6 = 1.8816`, all below the 3.0/6.0 caps; a
subsequent `onSuccess()` after more than 10 seconds of idle multiplies
both by 0.95, giving 1.2768 and 1.78752, and in general never drops a
bound below its base value. -/
theorem rate_limited_three_times_scenario :
    (applyOps (AdaptiveDelay.init 0.5 0.7 10)
      [.rateLimited, .rateLimited, .rateLimited]).min_delay = 1.344 ∧
    (applyOps (AdaptiveDelay.init 0.5 0.7 10)
      [.rateLimited, .rateLimited, .rateLimited]).max_delay = 1.8816 ∧
    (applyOps (AdaptiveDelay.init 0.5 0.7 10)
      [.rateLimited, .rateLimited, .rateLimited, .success true]).min_delay
      = 1.2768 ∧
    (applyOps (AdaptiveDelay.init 0.5 0.7 10)
      [.rateLimited, .rateLimited, .rateLimited, .success true]).max_delay
      = 1.78752 ∧
    (∀ d : AdaptiveDelay, ∀ idle,
      d.base_min ≤ d.min_delay → (d.on_success idle).min_delay ≥ d.base_min) ∧
    (∀ d : AdaptiveDelay, ∀ idle,
      d.base_max ≤ d.max_delay → (d.on_success idle).max_delay ≥ d.base_max) := by
  refine ⟨by norm_num [applyOps, applyOp, AdaptiveDelay.init,
      AdaptiveDelay.on_rate_limit, List.foldl, min_def],
    by norm_num [applyOps, applyOp, AdaptiveDelay.init,
      AdaptiveDelay.on_rate_limit, List.foldl, min_def],
    by norm_num [applyOps, applyOp, AdaptiveDelay.init,
      AdaptiveDelay.on_rate_limit, AdaptiveDelay.on_success, List.foldl,
      min_def, max_def],
    by norm_num [applyOps, applyOp, AdaptiveDelay.init,
      AdaptiveDelay.on_rate_limit, AdaptiveDelay.on_success, List.foldl,
      min_def, max_def], ?_, ?_⟩
  · intro d idle h
    obtain ⟨-, -, e3, -⟩ := on_success_fields d idle
    rw [e3]
    cases idle
    · exact h
    · exact le_max_left _ _
  · intro d idle h
    obtain ⟨-, -, -, e4⟩ := on_success_fields d idle
    rw [e4]
    cases idle
    · exact h
    · exact le_max_left _ _

/-- C5, witness: the never-below-base clauses instantiated at the state
reached after the three rate-limit calls. -/
theorem rate_limited_three_times_scenario_witness :
    (applyOps (AdaptiveDelay.init 0.5 0.7 10)
      [.rateLimited, .rateLimited, .rateLimited]).min_delay = 1.344 ∧
    ((applyOps (AdaptiveDelay.init 0.5 0.7 10)
      [.rateLimited, .rateLimited, .rateLimited]).on_success true).min_delay
      ≥ 0.5 :=
  ⟨rate_limited_three_times_scenario.1,
   rate_limited_three_times_scenario.2.2.2.2.1
     (applyOps (AdaptiveDelay.init 0.5 0.7 10)
       [.rateLimited, .rateLimited, .rateLimited]) true
     (by norm_num [applyOps, applyOp, AdaptiveDelay.init,
        AdaptiveDelay.on_rate_limit, List.foldl, min_def])⟩

/-! ## Claim C4 -/

/-- C4, counterexample.  The metrics tracker is not an upsert-by-name
summary: publishing the very same metrics mapping twice grows the
backing table instead of overwriting the rows already present, so
historical versions are kept, contradicting the claimed last-write-wins
behaviour. -/
theorem update_dashboard_not_upsert_by_name :
    update_dashboard
        (update_dashboard [] "manual" "t" [("Run Number", "1")])
        "manual" "t" [("Run Number", "1")]
      ≠ update_dashboard [] "manual" "t" [("Run Number", "1")] := by
  decide

/-- C4, amended.  `update_dashboard` appends exactly one new row per
published metrics mapping at the bottom of the Dashboard table and
preserves every previously written row, so the table is an append-only
log of runs rather than a keyed last-write-wins summary. -/
theorem update_dashboard_appends_one_row (rows : List (List String))
    (trigger now : String) (metrics : List (String × String)) :
    (update_dashboard rows trigger now metrics).length = rows.length + 1 ∧
    (update_dashboard rows trigger now metrics).take rows.length = rows ∧
    (update_dashboard rows trigger now metrics).getLast? =
      some (dashboardRow trigger now metrics) := by
  refine ⟨by simp [update_dashboard], ?_, ?_⟩
  · simp [update_dashboard, List.take_left]
  · simp [update_dashboard]

/-! ## Claim C10 -/

/-- C10.  When the single worksheet call of the taken branch fails
(`ok = false`, the quota path of `record_nick_seen`), the in-memory
tracker state — the key-to-entry mapping and the next-row counter — is
returned exactly as it was: a failed recording never advances a count or
allocates a row. -/
theorem record_nick_seen_failure_leaves_state (s : NickState)
    (nickname ts : String) :
    record_nick_seen s nickname ts false = s := by
  unfold record_nick_seen
  by_cases h1 : nickname = "" <;> simp only [h1, ite_true, ite_false, if_true, if_false]
  by_cases h2 : pyLower (pyStrip nickname) = "" <;>
    simp only [h2, ite_true, ite_false, if_true, if_false]
  cases s.entries.lookup (pyLower (pyStrip nickname)) <;> simp

/-! ## Claim C9 -/

/-- C9.  Lifecycle of a seen-tracker entry under successful store calls:
the first observation of a key creates an entry with `timesSeen = 1` and
`firstSeenAt = lastSeenAt =` the observation time at the next free row,
advancing the row counter; every subsequent observation of the key
increments `timesSeen` by exactly one and updates `lastSeenAt`, leaving
`firstSeenAt` (and the recorded row, and the row counter) untouched. -/
theorem record_nick_seen_lifecycle (s : NickState) (nickname ts : String)
    (hn : nickname ≠ "") (hk : pyLower (pyStrip nickname) ≠ "") :
    (s.entries.lookup (pyLower (pyStrip nickname)) = none →
      (record_nick_seen s nickname ts true).entries.lookup
          (pyLower (pyStrip nickname)) = some ⟨s.nextRow, 1, ts, ts⟩ ∧
      (record_nick_seen s nickname ts true).nextRow = s.nextRow + 1) ∧
    (∀ e, s.entries.lookup (pyLower (pyStrip nickname)) = some e →
      (record_nick_seen s nickname ts true).entries.lookup
          (pyLower (pyStrip nickname)) =
        some { e with times := e.times + 1, last := ts } ∧
      (record_nick_seen s nickname ts true).nextRow = s.nextRow) := by
  constructor
  · intro hnone
    unfold record_nick_seen
    simp [hn, hk, hnone, List.lookup]
  · intro e he
    unfold record_nick_seen
    simp [hn, hk, he, List.lookup]

/-- C9, witness: observing "Ali" for the first time creates the entry
`{row 2, times 1, first T1, last T1}`; observing "ALI" (the same key
after normalization) again increments the count and moves only the last
seen time. -/
theorem record_nick_seen_lifecycle_witness :
    (record_nick_seen ⟨[], 2⟩ "Ali" "T1" true).entries.lookup
        (pyLower (pyStrip "Ali")) = some ⟨2, 1, "T1", "T1"⟩ ∧
    (record_nick_seen (record_nick_seen ⟨[], 2⟩ "Ali" "T1" true)
        "ALI" "T2" true).entries.lookup (pyLower (pyStrip "ALI")) =
      some ⟨2, 2, "T1", "T2"⟩ :=
  ⟨((record_nick_seen_lifecycle ⟨[], 2⟩ "Ali" "T1" (by decide) (by decide)).1
      (by decide)).1,
   (((record_nick_seen_lifecycle (record_nick_seen ⟨[], 2⟩ "Ali" "T1" true)
      "ALI" "T2" (by decide) (by decide)).2) ⟨2, 1, "T1", "T1"⟩ (by decide)).1⟩

/-! ## Claim C7 -/

/-- C7.  `write_profile` fails with the invalid-record error exactly when
the identity field is blank after stripping, and on that failure it
returns before any mutation: the whole Sheets state (identity index,
sheet rows and tags) is returned untouched, so the caller can move on to
the next record.  When the stripped nickname is non-blank the call never
returns the error status. -/
theorem write_profile_invalid_record (cfg : Config) (now : String)
    (s : SheetsState) (p : Profile) :
    (pyStrip ((pget p "NICK NAME").getD "") = "" →
      write_profile cfg now s p = (s, ⟨"error", []⟩)) ∧
    (pyStrip ((pget p "NICK NAME").getD "") ≠ "" →
      (write_profile cfg now s p).2.status ≠ "error") := by
  constructor
  · intro h
    unfold write_profile
    simp [h]
  · intro h
    unfold write_profile
    simp only [h, ite_true, ite_false, if_true, if_false]
    rcases hl : s.existing.lookup (pyLower (pyStrip ((pget p "NICK NAME").getD ""))) with - | ex
    · simp [hl]
    · simp only [hl]
      by_cases hc : changedIndices ex.data
          (buildRowValues (normalizeProfile cfg now
            (s.tags_mapping.lookup (pyLower (pyStrip ((pget p "NICK NAME").getD "")))) p)) = [] <;>
        simp [hc]

/-- C7, witness: a record whose nickname is whitespace is rejected with
the error result and an unchanged state, while a record with nickname
"sara" is not rejected. -/
theorem write_profile_invalid_record_witness :
    write_profile idConfig "t" ⟨[], [], []⟩ [("NICK NAME", "  ")] =
      (⟨[], [], []⟩, ⟨"error", []⟩) ∧
    (write_profile idConfig "t" ⟨[], [], []⟩ [("NICK NAME", "sara")]).2.status
      ≠ "error" :=
  ⟨(write_profile_invalid_record idConfig "t" ⟨[], [], []⟩
      [("NICK NAME", "  ")]).1 (by decide),
   (write_profile_invalid_record idConfig "t" ⟨[], [], []⟩
      [("NICK NAME", "sara")]).2 (by decide)⟩

/-! ## Claim C1 -/

/-- C1, failing input.  Seed the store with the single record "ali" at
physical row 2 and upsert the new record "sara".  The code inserts
"sara" at the head (row 2), which shifts "ali" down to physical row 3,
but the identity index entry of "ali" still records row 2: after one
upsert the index maps two different keys to the same position and the
position recorded for "ali" no longer points at its row, contradicting
the claimed index correctness (the spec requires every key to stay
indexed at its own unique row).  A later upsert of "ali" would then
delete the wrong physical row. -/
theorem index_stale_after_head_insert :
    (((write_profile idConfig "t0"
        ⟨_load_existing [aliSeedRow], [aliSeedRow], []⟩
        [("NICK NAME", "sara")]).1).existing.lookup "ali" =
      some ⟨2, aliSeedRow⟩) ∧
    (((write_profile idConfig "t0"
        ⟨_load_existing [aliSeedRow], [aliSeedRow], []⟩
        [("NICK NAME", "sara")]).1).existing.lookup "sara").map
        ExistingEntry.row = some 2 ∧
    ((((write_profile idConfig "t0"
        ⟨_load_existing [aliSeedRow], [aliSeedRow], []⟩
        [("NICK NAME", "sara")]).1).sheetRows.getD 0 []).getD 1 "" = "sara") ∧
    ((((write_profile idConfig "t0"
        ⟨_load_existing [aliSeedRow], [aliSeedRow], []⟩
        [("NICK NAME", "sara")]).1).sheetRows.getD 1 []).getD 1 "" = "ali") := by
  decide

/-! ## Diff-engine lemmas -/

/-- Dict lookup after an assignment to a different key is unchanged. -/
lemma pget_pset_ne (p : Profile) (k v c : String) (h : c ≠ k) :
    pget (pset p k v) c = pget p c := by
  simp [pget, pset, List.lookup, beq_eq_false_iff_ne.mpr h]

/-- Dict lookup after an assignment to the same key sees the new value. -/
lemma pget_pset_self (p : Profile) (k v : String) :
    pget (pset p k v) k = some v := by
  simp [pget, pset, List.lookup]

/-- Normalization with no tags value touches only the two timestamp
fields, so every other lookup is unchanged. -/
lemma pget_normalizeProfile_none (cfg : Config) (now : String) (p : Profile)
    (c : String) (h1 : c ≠ "LAST POST TIME") (h2 : c ≠ "DATETIME SCRAP") :
    pget (normalizeProfile cfg now none p) c = pget p c := by
  unfold normalizeProfile
  rcases hl : pget p "LAST POST TIME" with - | v
  · simp only [hl]
    exact pget_pset_ne _ _ _ _ h2
  · simp only [hl]
    by_cases hv : v = ""
    · simp only [hv, ite_true, if_true]
      exact pget_pset_ne _ _ _ _ h2
    · simp only [hv, ite_false, if_false]
      rw [pget_pset_ne _ _ _ _ h2, pget_pset_ne _ _ _ _ h1]

/-- The observation time stamped by normalization lands only in the
`DATETIME SCRAP` field: at every other field two normalizations of the
same profile with the same tags value agree, whatever the two times. -/
lemma pget_normalizeProfile_time (cfg : Config) (t1 t2 : String)
    (tags : Option String) (p : Profile) (c : String)
    (h2 : c ≠ "DATETIME SCRAP") :
    pget (normalizeProfile cfg t1 tags p) c =
      pget (normalizeProfile cfg t2 tags p) c := by
  unfold normalizeProfile
  rcases tags with - | tv
  · rcases hl : pget p "LAST POST TIME" with - | v <;> simp only [hl]
    · rw [pget_pset_ne _ _ _ _ h2, pget_pset_ne _ _ _ _ h2]
    · by_cases hv : v = "" <;> simp only [hv, ite_true, ite_false, if_true, if_false] <;>
        rw [pget_pset_ne _ _ _ _ h2, pget_pset_ne _ _ _ _ h2]
  · by_cases ht : tv = "" <;>
      simp only [ht, ite_true, ite_false, if_true, if_false] <;>
      [skip; by_cases hc : c = "TAGS"]
    · rcases hl : pget p "LAST POST TIME" with - | v <;> simp only [hl]
      · rw [pget_pset_ne _ _ _ _ h2, pget_pset_ne _ _ _ _ h2]
      · by_cases hv : v = "" <;> simp only [hv, ite_true, ite_false, if_true, if_false] <;>
          rw [pget_pset_ne _ _ _ _ h2, pget_pset_ne _ _ _ _ h2]
    · subst hc
      rw [pget_pset_self, pget_pset_self]
    · rw [pget_pset_ne _ _ _ _ hc, pget_pset_ne _ _ _ _ hc,
        pget_pset_ne _ _ _ _ h2, pget_pset_ne _ _ _ _ h2]

/-- Pointwise description of the built row: at a schema position holding
column `c`, the row carries the blanked, raw or cleaned value prescribed
for `c`. -/
lemma buildRowValues_getD (p : Profile) (i : ℕ) (c : String)
    (hc : COLUMN_ORDER.get? i = some c) :
    (buildRowValues p).getD i "" =
      (if c = "IMAGE" then ""
       else if c = "PROFILE LINK" then (pget p c).getD ""
       else if c = "LAST POST" then (pget p c).getD ""
       else clean_data (pgetD p c)) := by
  unfold buildRowValues
  rw [List.getD_eq_getElem?_getD, List.getElem?_map, ← List.get?_eq_getElem?, hc]
  rfl

/-- Membership in the change set, spelled out: the position is a schema
position, its column is not excluded, and the stored cell differs from
the built row value. -/
lemma mem_changedIndices (dataBefore rowValues : List String) (j : ℕ) :
    j ∈ changedIndices dataBefore rowValues ↔
      j < 18 ∧
      HIGHLIGHT_EXCLUDE_COLUMNS.contains (COLUMN_ORDER.getD j "") = false ∧
      dataBefore.getD j "" ≠ rowValues.getD j "" := by
  have hlen : COLUMN_ORDER.length = 18 := rfl
  unfold changedIndices
  rw [List.mem_filter, List.mem_range, hlen]
  simp [bne_iff_ne, and_assoc]

/-- The change set is empty when the stored cell and the built row agree
at every non-excluded schema position. -/
lemma changedIndices_eq_nil (dataBefore rowValues : List String)
    (h : ∀ j, j < 18 →
      HIGHLIGHT_EXCLUDE_COLUMNS.contains (COLUMN_ORDER.getD j "") = false →
      dataBefore.getD j "" = rowValues.getD j "") :
    changedIndices dataBefore rowValues = [] := by
  rcases hne : changedIndices dataBefore rowValues with - | ⟨j, rest⟩
  · rfl
  · exfalso
    have hj : j ∈ changedIndices dataBefore rowValues := by rw [hne]; exact List.mem_cons_self _ _
    obtain ⟨hj18, hx, hd⟩ := (mem_changedIndices _ _ j).1 hj
    exact hd (h j hj18 hx)

/-- Schema facts about the plain columns: each sits at its stated
position, is not excluded, is none of the specially treated columns, and
its name appears at no other schema position. -/
lemma plainCols_facts : ∀ ic ∈ plainCols,
    ic.1 < 18 ∧
    COLUMN_ORDER.get? ic.1 = some ic.2 ∧
    HIGHLIGHT_EXCLUDE_COLUMNS.contains ic.2 = false ∧
    ic.2 ≠ "IMAGE" ∧ ic.2 ≠ "PROFILE LINK" ∧ ic.2 ≠ "LAST POST" ∧
    ic.2 ≠ "LAST POST TIME" ∧ ic.2 ≠ "DATETIME SCRAP" ∧
    (∀ j, j < 18 → (COLUMN_ORDER.getD j "" = ic.2 ↔ j = ic.1)) := by
  decide

/-- Every non-excluded schema position is either the blanked `IMAGE`
position 0 or one of the plain columns. -/
lemma nonexcluded_classified : ∀ j, j < 18 →
    HIGHLIGHT_EXCLUDE_COLUMNS.contains (COLUMN_ORDER.getD j "") = false →
    j = 0 ∨ (j, COLUMN_ORDER.getD j "") ∈ plainCols := by
  decide

/-- The result of `write_profile` in the update branch, with the diff,
status and changed-field names spelled out. -/
lemma write_profile_update_result (cfg : Config) (now : String)
    (s : SheetsState) (p : Profile) (ex : ExistingEntry)
    (hn : pyStrip ((pget p "NICK NAME").getD "") ≠ "")
    (hex : s.existing.lookup (pyLower (pyStrip ((pget p "NICK NAME").getD "")))
      = some ex) :
    (write_profile cfg now s p).2 =
      ⟨if changedIndices ex.data (buildRowValues (normalizeProfile cfg now
          (s.tags_mapping.lookup (pyLower (pyStrip ((pget p "NICK NAME").getD "")))) p)) = []
        then "unchanged" else "updated",
       (changedIndices ex.data (buildRowValues (normalizeProfile cfg now
          (s.tags_mapping.lookup (pyLower (pyStrip ((pget p "NICK NAME").getD "")))) p))).map
         (fun i => COLUMN_ORDER.getD i "")⟩ := by
  unfold write_profile
  simp only [hn, ite_false, if_false, hex]

/-- After any successful `write_profile`, the key is indexed at the head
position 2 with the freshly built row values, and the tags mapping is
untouched. -/
lemma write_profile_state (cfg : Config) (now : String) (s : SheetsState)
    (p : Profile)
    (hn : pyStrip ((pget p "NICK NAME").getD "") ≠ "") :
    ((write_profile cfg now s p).1).existing.lookup
        (pyLower (pyStrip ((pget p "NICK NAME").getD ""))) =
      some ⟨2, buildRowValues (normalizeProfile cfg now
        (s.tags_mapping.lookup (pyLower (pyStrip ((pget p "NICK NAME").getD "")))) p)⟩ ∧
    ((write_profile cfg now s p).1).tags_mapping = s.tags_mapping := by
  unfold write_profile
  simp only [hn, ite_false, if_false]
  rcases hl : s.existing.lookup (pyLower (pyStrip ((pget p "NICK NAME").getD "")))
    with - | ex <;> simp [hl, List.lookup]

/-! ## Claim C3 -/

/-- C3, counterexample.  Both the stored CITY value "N/A" and the
incoming CITY value "" are empty-equivalent under the placeholder
vocabulary (`clean_data` maps both to the empty string), yet upserting
the incoming record against the stored one reports CITY as changed: the
diff cleans only the incoming value and compares the stored cell
verbatim, so the claimed both-empty-equivalent-never-changed property
fails. -/
theorem diff_placeholder_equivalence_fails :
    clean_data "N/A" = "" ∧ clean_data "" = "" ∧
    (write_profile idConfig "t0"
        ⟨_load_existing [aliSeedRowNA], [aliSeedRowNA], []⟩
        [("NICK NAME", "ali"), ("CITY", "")]).2 = ⟨"updated", ["CITY"]⟩ := by
  decide

/-- C3, amended.  The diff normalizes only the incoming value — the
stored cell is compared verbatim: for every plain (non-excluded,
non-blanked) schema column, the column is in the returned change set
exactly when the raw stored cell differs from `clean_data` of the
incoming value.  In particular two empty-equivalent values are reported
as changed whenever the stored cell holds a non-empty placeholder
spelling rather than the empty string itself, and a placeholder incoming
value against a real stored value is reported as changed. -/
theorem diff_raw_stored_vs_cleaned_incoming (cfg : Config) (now : String)
    (s : SheetsState) (p : Profile) (i : ℕ) (c : String) (ex : ExistingEntry)
    (hn : pyStrip ((pget p "NICK NAME").getD "") ≠ "")
    (hex : s.existing.lookup (pyLower (pyStrip ((pget p "NICK NAME").getD "")))
      = some ex)
    (htags : s.tags_mapping.lookup (pyLower (pyStrip ((pget p "NICK NAME").getD "")))
      = none)
    (hc : (i, c) ∈ plainCols) :
    c ∈ (write_profile cfg now s p).2.changed_fields ↔
      ex.data.getD i "" ≠ clean_data ((pget p c).getD "") := by
  obtain ⟨hi18, hget, hexcl, hni, hnp, hnl, hnlt, hnds, huniq⟩ :=
    plainCols_facts (i, c) hc
  rw [write_profile_update_result cfg now s p ex hn hex, htags]
  have hgetD : COLUMN_ORDER.getD i "" = c := by
    rw [List.getD_eq_getElem?_getD, ← List.get?_eq_getElem?, hget]
    rfl
  have hrvi : (buildRowValues (normalizeProfile cfg now none p)).getD i "" =
      clean_data ((pget p c).getD "") := by
    rw [buildRowValues_getD _ i c hget]
    simp only [hni, hnp, hnl, ite_false, if_false]
    have : pgetD (normalizeProfile cfg now none p) c = (pget p c).getD "" := by
      show ((normalizeProfile cfg now none p).lookup c).getD "" = _
      rw [show (normalizeProfile cfg now none p).lookup c =
          pget (normalizeProfile cfg now none p) c from rfl,
        pget_normalizeProfile_none cfg now p c hnlt hnds]
    rw [this]
  constructor
  · intro hmem
    obtain ⟨j, hj, hje⟩ := List.mem_map.1 hmem
    obtain ⟨hj18, -, hdj⟩ := (mem_changedIndices _ _ j).1 hj
    have hji : j = i := (huniq j hj18).1 hje
    subst hji
    intro heq
    exact hdj (by rw [heq, hrvi])
  · intro hne
    refine List.mem_map.2 ⟨i, (mem_changedIndices _ _ i).2
      ⟨hi18, ?_, ?_⟩, hgetD⟩
    · rw [hgetD]; exact hexcl
    · rw [hrvi]; exact hne

/-- C3, witness: the characterization applied to the stored record "ali"
(CITY cell "Lahore") and an incoming record whose CITY is the
placeholder "n/a" — the cleaned incoming value is empty, the raw stored
cell is not, so CITY is reported changed. -/
theorem diff_raw_stored_vs_cleaned_incoming_witness :
    "CITY" ∈ (write_profile idConfig "t0"
        ⟨_load_existing [aliSeedRow], [aliSeedRow], []⟩
        [("NICK NAME", "ali"), ("CITY", "n/a")]).2.changed_fields ↔
      aliSeedRow.getD 6 "" ≠ clean_data "n/a" :=
  diff_raw_stored_vs_cleaned_incoming idConfig "t0"
    ⟨_load_existing [aliSeedRow], [aliSeedRow], []⟩
    [("NICK NAME", "ali"), ("CITY", "n/a")] 6 "CITY" ⟨2, aliSeedRow⟩
    (by decide) (by decide) (by decide) (by decide)

/-! ## Claim C8 -/

/-- C8, counterexample.  The stored record and the incoming record carry
the identical CITY value " Lahore " and differ only in the excluded
LAST POST TIME field, yet the upsert reports CITY changed instead of
UNCHANGED: the incoming value is cleaned to "Lahore" while the stored
cell is compared verbatim, so the claimed exclusion property fails for
stored values that are not in cleaned form. -/
theorem diff_excluded_only_still_changed :
    (write_profile idConfig "t0"
        ⟨_load_existing [aliSeedRowSpaced], [aliSeedRowSpaced], []⟩
        [("NICK NAME", "ali"), ("CITY", " Lahore "), ("LAST POST TIME", "y")]).2
      = ⟨"updated", ["CITY"]⟩ := by
  decide

/-- C8, amended.  When the stored record agrees with the incoming record
on every plain (non-excluded, non-blanked) field, each such shared value
is already in cleaned form (a fixed point of `clean_data`), the stored
IMAGE cell is blank and the tags mapping has no entry for the key — so
the two records differ at most in excluded fields and the specially
blanked IMAGE column — the diff is empty and the upsert reports
UNCHANGED with no changed fields. -/
theorem upsert_unchanged_when_only_excluded_differ (cfg : Config)
    (now : String) (s : SheetsState) (p : Profile) (ex : ExistingEntry)
    (hn : pyStrip ((pget p "NICK NAME").getD "") ≠ "")
    (hex : s.existing.lookup (pyLower (pyStrip ((pget p "NICK NAME").getD "")))
      = some ex)
    (htags : s.tags_mapping.lookup (pyLower (pyStrip ((pget p "NICK NAME").getD "")))
      = none)
    (himg : ex.data.getD 0 "" = "")
    (hagree : ∀ ic ∈ plainCols,
      ex.data.getD ic.1 "" = (pget p ic.2).getD "" ∧
      clean_data ((pget p ic.2).getD "") = (pget p ic.2).getD "") :
    (write_profile cfg now s p).2 = ⟨"unchanged", []⟩ := by
  rw [write_profile_update_result cfg now s p ex hn hex, htags]
  have hnil : changedIndices ex.data
      (buildRowValues (normalizeProfile cfg now none p)) = [] := by
    apply changedIndices_eq_nil
    intro j hj18 hxj
    rcases nonexcluded_classified j hj18 hxj with h0 | hplain
    · subst h0
      rw [himg, buildRowValues_getD _ 0 "IMAGE" (by decide)]
      simp
    · obtain ⟨ha, hfix⟩ := hagree _ hplain
      obtain ⟨-, hget, -, hni, hnp, hnl, hnlt, hnds, -⟩ :=
        plainCols_facts _ hplain
      rw [buildRowValues_getD _ j _ hget]
      simp only [hni, hnp, hnl, ite_false, if_false]
      have hnorm : pgetD (normalizeProfile cfg now none p)
          (COLUMN_ORDER.getD j "") =
          (pget p (COLUMN_ORDER.getD j "")).getD "" := by
        show ((normalizeProfile cfg now none p).lookup _).getD "" = _
        rw [show (normalizeProfile cfg now none p).lookup (COLUMN_ORDER.getD j "") =
            pget (normalizeProfile cfg now none p) (COLUMN_ORDER.getD j "") from rfl,
          pget_normalizeProfile_none cfg now p _ hnlt hnds]
      rw [hnorm, hfix, ha]
  rw [hnil]
  simp

/-- C8, witness: the stored record "ali" in cleaned form and an incoming
record differing from it only in the excluded LAST POST TIME field
produce an UNCHANGED upsert with no changed fields. -/
theorem upsert_unchanged_when_only_excluded_differ_witness :
    (write_profile idConfig "t0"
        ⟨_load_existing [aliSeedRow], [aliSeedRow], []⟩
        [("NICK NAME", "ali"), ("CITY", "Lahore"), ("LAST POST TIME", "y")]).2
      = ⟨"unchanged", []⟩ :=
  upsert_unchanged_when_only_excluded_differ idConfig "t0"
    ⟨_load_existing [aliSeedRow], [aliSeedRow], []⟩
    [("NICK NAME", "ali"), ("CITY", "Lahore"), ("LAST POST TIME", "y")]
    ⟨2, aliSeedRow⟩ (by decide) (by decide) (by decide) (by decide)
    (by decide)

/-! ## Claim C6 -/

/-- C6.  Upsert is idempotent on unchanged input: after upserting any
valid record (whether it lands in the new or the update branch), an
immediate second upsert of the same record reports UNCHANGED with an
empty changed-field set — the second diff compares the cached row values
against a freshly built row that can differ only in the excluded
timestamp fields. -/
theorem upsert_idempotent (cfg : Config) (t1 t2 : String) (s : SheetsState)
    (p : Profile)
    (hn : pyStrip ((pget p "NICK NAME").getD "") ≠ "") :
    (write_profile cfg t2 (write_profile cfg t1 s p).1 p).2 =
      ⟨"unchanged", []⟩ := by
  obtain ⟨hlook, htagsEq⟩ := write_profile_state cfg t1 s p hn
  rw [write_profile_update_result cfg t2 _ p _ hn hlook, htagsEq]
  have hnil : changedIndices
      (ExistingEntry.data ⟨2, buildRowValues (normalizeProfile cfg t1
        (s.tags_mapping.lookup (pyLower (pyStrip ((pget p "NICK NAME").getD "")))) p)⟩)
      (buildRowValues (normalizeProfile cfg t2
        (s.tags_mapping.lookup (pyLower (pyStrip ((pget p "NICK NAME").getD "")))) p))
      = [] := by
    apply changedIndices_eq_nil
    intro j hj18 hxj
    rcases nonexcluded_classified j hj18 hxj with h0 | hplain
    · subst h0
      show (buildRowValues _).getD 0 "" = (buildRowValues _).getD 0 ""
      rw [buildRowValues_getD _ 0 "IMAGE" (by decide),
        buildRowValues_getD _ 0 "IMAGE" (by decide)]
      simp
    · obtain ⟨-, hget, -, hni, hnp, hnl, hnlt, hnds, -⟩ :=
        plainCols_facts _ hplain
      show (buildRowValues _).getD j "" = (buildRowValues _).getD j ""
      rw [buildRowValues_getD _ j _ hget, buildRowValues_getD _ j _ hget]
      simp only [hni, hnp, hnl, ite_false, if_false]
      have hsame : pget (normalizeProfile cfg t1
            (s.tags_mapping.lookup (pyLower (pyStrip ((pget p "NICK NAME").getD "")))) p)
            (COLUMN_ORDER.getD j "") =
          pget (normalizeProfile cfg t2
            (s.tags_mapping.lookup (pyLower (pyStrip ((pget p "NICK NAME").getD "")))) p)
            (COLUMN_ORDER.getD j "") :=
        pget_normalizeProfile_time cfg t1 t2 _ p _ hnds
      show clean_data ((List.lookup _ _).getD "") = clean_data ((List.lookup _ _).getD "")
      rw [show (List.lookup (COLUMN_ORDER.getD j "") (normalizeProfile cfg t1
          (s.tags_mapping.lookup (pyLower (pyStrip ((pget p "NICK NAME").getD "")))) p)) =
          pget (normalizeProfile cfg t1
          (s.tags_mapping.lookup (pyLower (pyStrip ((pget p "NICK NAME").getD "")))) p)
          (COLUMN_ORDER.getD j "") from rfl, hsame]
      rfl
  rw [hnil]
  simp

/-- C6, witness: upserting the record "sara" twice in a row from the
empty store yields UNCHANGED with no changed fields the second time. -/
theorem upsert_idempotent_witness :
    (write_profile idConfig "t2"
        (write_profile idConfig "t1" ⟨[], [], []⟩
          [("NICK NAME", "sara"), ("CITY", "N/A")]).1
        [("NICK NAME", "sara"), ("CITY", "N/A")]).2 = ⟨"unchanged", []⟩ :=
  upsert_idempotent idConfig "t1" "t2" ⟨[], [], []⟩
    [("NICK NAME", "sara"), ("CITY", "N/A")] (by decide)

end Scraper
